import Mathlib

/-!
Shallow embedding of the pyGestalt networked single-axis stepper firmware
(src/nodes/networkedSingleStepper/firmware/086-005b.cpp), covering the
packet codec, the circular motion buffer, the segment loader, the sync
service, the status reply, and the TIMER1 step-generator ISR.

Modelling conventions:
* The node has `numberOfSteppersOnNode = 1`, so the per-stepper arrays and
  the `for` loops over `stepperIndex` collapse to a single stepper state.
* C machine integers are modelled as `Nat` (unsigned) and `Int` (signed).
  Bit masks and shifts by constants are written with `%` and `/`
  (`value & 0xFF` is `value % 2^8`, `value >> 8` is `value / 2^8`).
  The `uint32_t` decrement of `stepsRemaining` and the int32/uint32 casts
  of the codec are modelled with explicit `% 2^32` wrap-around.  The
  `int32_t` Bresenham accumulator arithmetic is modelled on `Int` without
  wrap-around: all theorems below keep `segmentTime` and `targetSteps`
  within 24 bits, where the int32 arithmetic of the source cannot
  overflow.
* The RX/TX packet buffers are `List Nat` of byte values; `payloadLocation`
  (a global supplied by gestalt.h) is passed as a parameter.
* Hardware effects that the firmware performs through GPIO writes are
  reduced to the observable bits the claims speak about: the direction pin
  level of stepper 1 (`directionPin`, true = forward), the driver enable
  state (`driversEnabled`), the TIMER1 counter (`tcnt`), and the step
  pulses, which are reported as the `stepMask` value passed to `step()`.
-/

-- ----- STEPPING PARAMETERS (086-005b.cpp) -----

def numberOfSteppersOnNode : Nat := 1

def smoothingMicrosteppingBits : Nat := 2

def motionBuffer_length : Nat := 48

-- ----- STEP GENERATOR STATE VARIABLES -----

/-- Firmware `struct stepperState`: per-stepper active-segment state. -/
structure StepperState where
  stepsRemaining : Nat
  targetSteps : Nat
  bresenhamAccumulator : Int
  direction : Int
  deriving Repr, DecidableEq

/-- Firmware `struct motionSegment`: one slot of the motion buffer
(single stepper, so `stepper_target` is a scalar). -/
structure MotionSegment where
  stepper_target : Int
  segmentTime : Nat
  segmentKey : Nat
  absoluteMove : Nat
  waitForSync : Nat
  deriving Repr, DecidableEq

instance : Inhabited MotionSegment := ⟨⟨0, 0, 0, 0, 0⟩⟩

/-- The complete mutable state of the firmware that the claims touch:
the global variables of 086-005b.cpp plus the observable hardware bits. -/
structure NodeState where
  activeStepper : StepperState
  activeSegment_bresenhamTriggerThreshold : Int
  activeSegment_timeRemaining : Nat
  activeSegment_totalTime : Nat
  activeSegment_segmentKey : Nat
  waitingForSync : Nat
  stepperPosition : Int
  motionBuffer : List MotionSegment
  motionBuffer_readPosition : Nat
  motionBuffer_writePosition : Nat
  motionBuffer_syncSearchPosition : Nat
  directionPin : Bool
  driversEnabled : Bool
  tcnt : Nat
  deriving Repr, DecidableEq

/-- The observable output of `transmitUnicastPacket(port, length)`:
the TX buffer contents together with the port and payload length. -/
structure TxPacket where
  buffer : List Nat
  port : Nat
  payloadLength : Nat
  deriving Repr, DecidableEq

-- ----- GESTALT PORT DEFINITIONS -----

def gestaltPort_stepRequest : Nat := 13

def gestaltPort_getStatus : Nat := 15

-- ----- RX/TX BUFFER READ/WRITE OPERATIONS -----

/-- Codec `writeTxBuffer_uint24(value, payloadIndex)`: stores the three
little-endian bytes `value & 0xFF`, `(value & 0xFF00) >> 8`,
`(value & 0xFF0000) >> 16` at `payloadLocation + payloadIndex`. -/
def writeTxBuffer_uint24 (value : Nat) (tx : List Nat)
    (payloadLocation payloadIndex : Nat) : List Nat :=
  let baseLocation := payloadLocation + payloadIndex
  ((tx.set baseLocation (value % 2 ^ 8)).set (baseLocation + 1)
      (value / 2 ^ 8 % 2 ^ 8)).set (baseLocation + 2) (value / 2 ^ 16 % 2 ^ 8)

/-- The C cast `(uint32_t)value` of an `int32_t`: two's-complement
reinterpretation into `[0, 2^32)`. -/
def uint32_ofInt32 (value : Int) : Nat := (value % 2 ^ 32).toNat

/-- The C cast `(int32_t)value` of a `uint32_t`: two's-complement
reinterpretation into `[-2^31, 2^31)`. -/
def int32_ofUInt32 (value : Nat) : Int :=
  if value % 2 ^ 32 < 2 ^ 31 then (value % 2 ^ 32 : Nat) else (value % 2 ^ 32 : Nat) - 2 ^ 32

/-- Codec `writeTxBuffer_int24(value, payloadIndex)`: casts the int32 to uint32
and stores it as an unsigned 24-bit value. -/
def writeTxBuffer_int24 (value : Int) (tx : List Nat)
    (payloadLocation payloadIndex : Nat) : List Nat :=
  writeTxBuffer_uint24 (uint32_ofInt32 value) tx payloadLocation payloadIndex

/-- Codec `readRxBuffer_uint24(payloadIndex)`: little-endian 24-bit read from the
RX buffer. -/
def readRxBuffer_uint24 (rx : List Nat) (payloadLocation payloadIndex : Nat) : Nat :=
  let baseLocation := payloadLocation + payloadIndex
  rx.getD baseLocation 0 + rx.getD (baseLocation + 1) 0 * 2 ^ 8
    + rx.getD (baseLocation + 2) 0 * 2 ^ 16

/-- Codec `readRxBuffer_int24(payloadIndex)`: reads a uint24, sign-extends by
adding `0xFF000000` when bit 23 is set, and casts to int32. -/
def readRxBuffer_int24 (rx : List Nat) (payloadLocation payloadIndex : Nat) : Int :=
  let unsignedValue := readRxBuffer_uint24 rx payloadLocation payloadIndex
  let extendedValue :=
    if 0x800000 ≤ unsignedValue then unsignedValue + 0xFF000000 else unsignedValue
  int32_ofUInt32 extendedValue

-- ----- MOTION BUFFER OPERATIONS -----

/-- Enqueue `loadSegmentIntoMotionBuffer()`: decodes a stepRequest payload from the
RX buffer into the next motion-buffer slot.  Returns `1` and the updated
state on success, or `0` with the state untouched when the buffer is full. -/
def loadSegmentIntoMotionBuffer (s : NodeState) (rx : List Nat)
    (payloadLocation : Nat) : Nat × NodeState :=
  let newWritePosition := s.motionBuffer_writePosition + 1
  let newWritePosition := if newWritePosition = motionBuffer_length then 0 else newWritePosition
  if newWritePosition = s.motionBuffer_readPosition then
    (0, s)
  else
    let packetIndex := 3 * numberOfSteppersOnNode
    let seg : MotionSegment :=
      { stepper_target :=
          readRxBuffer_int24 rx payloadLocation 0 * 2 ^ smoothingMicrosteppingBits,
        segmentTime := readRxBuffer_uint24 rx payloadLocation packetIndex,
        segmentKey := rx.getD (payloadLocation + packetIndex + 3) 0,
        absoluteMove := rx.getD (payloadLocation + packetIndex + 4) 0,
        waitForSync := rx.getD (payloadLocation + packetIndex + 5) 0 }
    (1, { s with
            motionBuffer := s.motionBuffer.set newWritePosition seg,
            motionBuffer_writePosition := newWritePosition })

/-- The motion segment that `loadSegmentIntoMotionBuffer` decodes from a
stepRequest payload: the int24 target shifted left by
`smoothingMicrosteppingBits`, the uint24 segment time, and the verbatim
`segmentKey`, `absoluteMove` and `waitForSync` bytes. -/
def decodedStepRequest (rx : List Nat) (payloadLocation : Nat) : MotionSegment :=
  { stepper_target := readRxBuffer_int24 rx payloadLocation 0 * 2 ^ smoothingMicrosteppingBits,
    segmentTime := readRxBuffer_uint24 rx payloadLocation 3,
    segmentKey := rx.getD (payloadLocation + 6) 0,
    absoluteMove := rx.getD (payloadLocation + 7) 0,
    waitForSync := rx.getD (payloadLocation + 8) 0 }

-- ----- STEPPER UTILITY FUNCTIONS -----

/-- GPIO helper `stepper1_forward()`: drives the direction pin high. -/
def stepper1_forward (s : NodeState) : NodeState := { s with directionPin := true }

/-- GPIO helper `stepper1_reverse()`: drives the direction pin low. -/
def stepper1_reverse (s : NodeState) : NodeState := { s with directionPin := false }

/-- GPIO helper `setStepDirection(stepper, direction)`. -/
def setStepDirection (s : NodeState) (stepper direction : Nat) : NodeState :=
  match stepper with
  | 0 => if direction = 0 then stepper1_reverse s else stepper1_forward s
  | _ => s

-- ----- SEGMENT LOADER -----

/-- Loader `loadSegmentIntoStepGenerator()`: loads the next motion-buffer segment
into the active-segment state.  Returns `0` when the buffer is empty, or
`0` after raising `waitingForSync` when the next slot is flagged
`waitForSync`; otherwise clears `waitingForSync`, advances the read head
(and the sync search position if it trailed the read head), converts an
absolute target into a relative delta against the current position, sets
the direction pin, and arms the Bresenham state.  Returns `1` on load. -/
def loadSegmentIntoStepGenerator (s : NodeState) : Nat × NodeState :=
  if s.motionBuffer_readPosition = s.motionBuffer_writePosition then
    (0, s)
  else
    let newReadPosition := s.motionBuffer_readPosition + 1
    let newReadPosition := if newReadPosition = motionBuffer_length then 0 else newReadPosition
    if (s.motionBuffer.getD newReadPosition default).waitForSync = 1 then
      (0, { s with waitingForSync := 1 })
    else
      let s1 := { s with waitingForSync := 0 }
      let s2 :=
        if s1.motionBuffer_syncSearchPosition = s1.motionBuffer_readPosition then
          { s1 with motionBuffer_syncSearchPosition := newReadPosition }
        else s1
      let s3 := { s2 with motionBuffer_readPosition := newReadPosition }
      -- the source reads motionBuffer[motionBuffer_readPosition] after the
      -- read head advanced to newReadPosition; the buffer itself and the
      -- position ledger are untouched by that advance, so the slot and the
      -- position are read from the incoming state
      let seg := s.motionBuffer.getD newReadPosition default
      let targetSteps0 : Int := seg.stepper_target
      let targetSteps1 : Int :=
        if seg.absoluteMove = 1 then targetSteps0 - s.stepperPosition else targetSteps0
      -- if targetSteps1 > 0 the direction pin is driven forward and
      -- direction is +1; otherwise targetSteps1 is negated, the pin is
      -- driven in reverse and direction is -1
      let s4 := if 0 < targetSteps1 then setStepDirection s3 0 1 else setStepDirection s3 0 0
      let direction : Int := if 0 < targetSteps1 then 1 else -1
      let magnitude : Int := if 0 < targetSteps1 then targetSteps1 else -targetSteps1
      (1, { s4 with
              activeStepper :=
                { stepsRemaining := magnitude.toNat,
                  targetSteps := magnitude.toNat,
                  bresenhamAccumulator := 0,
                  direction := direction },
              activeSegment_segmentKey := seg.segmentKey,
              activeSegment_bresenhamTriggerThreshold := ((seg.segmentTime / 2 : Nat) : Int),
              activeSegment_totalTime := seg.segmentTime,
              activeSegment_timeRemaining := seg.segmentTime })

-- ----- STATUS RESPONSE -----

/-- Status reply `transmitStatus(responsePort, statusCode)`: writes the 7-byte status
payload `[statusCode, segmentKey, timeRemaining (uint24 LE), readPosition,
writePosition]` and transmits it to the response port. -/
def transmitStatus (s : NodeState) (tx : List Nat) (payloadLocation : Nat)
    (responsePort statusCode : Nat) : TxPacket :=
  let tx1 := tx.set payloadLocation statusCode
  let tx2 := tx1.set (payloadLocation + 1) s.activeSegment_segmentKey
  let tx3 := writeTxBuffer_uint24 s.activeSegment_timeRemaining tx2 payloadLocation 2
  let tx4 := tx3.set (payloadLocation + 5) s.motionBuffer_readPosition
  let tx5 := tx4.set (payloadLocation + 6) s.motionBuffer_writePosition
  { buffer := tx5, port := responsePort, payloadLength := 7 }

-- ----- SERVICE ROUTINES -----

/-- Service `svc_stepRequest()`: runs the enqueue and replies with a status packet
whose status code is the enqueue result. -/
def svc_stepRequest (s : NodeState) (rx tx : List Nat)
    (payloadLocation : Nat) : NodeState × TxPacket :=
  let success := loadSegmentIntoMotionBuffer s rx payloadLocation
  (success.2, transmitStatus success.2 tx payloadLocation gestaltPort_stepRequest success.1)

/-- Service `svc_getStatus()`: replies with a status packet with status code 1. -/
def svc_getStatus (s : NodeState) (tx : List Nat) (payloadLocation : Nat) : TxPacket :=
  transmitStatus s tx payloadLocation gestaltPort_getStatus 1

/-- Result of the `do`-`while` scan inside `svc_sync()`. -/
inductive SyncScanResult where
  | reachedWrite (position : Nat)
  | found (position : Nat)
  | noFuel
  deriving Repr, DecidableEq

/-- The `do`-`while` loop of `svc_sync()`: starting at `position`, stop as
soon as the write position is reached, otherwise advance (with wrap-around)
until a slot with `waitForSync == 1` is found.  `fuel` bounds the number of
iterations; with in-range positions the fuel is never exhausted. -/
def syncScan (buffer : List MotionSegment) (writePosition : Nat) :
    Nat → Nat → SyncScanResult
  | 0, _ => SyncScanResult.noFuel
  | fuel + 1, position =>
    if position = writePosition then
      SyncScanResult.reachedWrite position
    else
      let position1 := position + 1
      let position1 := if position1 = motionBuffer_length then 0 else position1
      if (buffer.getD position1 default).waitForSync = 1 then
        SyncScanResult.found position1
      else
        syncScan buffer writePosition fuel position1

/-- Service `svc_sync()`: resets TCNT1 when waiting on a sync, then scans forward
from the sync search position; on reaching the write position it records
the searched-to marker, and on finding a `waitForSync` segment it clears
that flag and moves the marker to its slot. -/
def svc_sync (s : NodeState) : NodeState :=
  let s := if s.waitingForSync ≠ 0 then { s with tcnt := 0 } else s
  match syncScan s.motionBuffer s.motionBuffer_writePosition (motionBuffer_length + 1)
      s.motionBuffer_syncSearchPosition with
  | SyncScanResult.reachedWrite position =>
    { s with motionBuffer_syncSearchPosition := position }
  | SyncScanResult.found position =>
    { s with
        motionBuffer_syncSearchPosition := position,
        motionBuffer := s.motionBuffer.set position
          { s.motionBuffer.getD position default with waitForSync := 0 } }
  | SyncScanResult.noFuel => s

-- ----- STEP GENERATOR INTERRUPT ROUTINE -----

/-- The stepping phase of `ISR(TIMER1_COMPA_vect)`: when time remains,
decrement it, advance the Bresenham accumulator by `targetSteps`, and on
crossing the threshold subtract `totalTime`, decrement `stepsRemaining`
(with uint32 wrap-around), update the position ledger by `direction`, and
report the step in the returned step mask. -/
def isrStepPhase (s : NodeState) : NodeState × Nat :=
  if 0 < s.activeSegment_timeRemaining then
    let accumulator := s.activeStepper.bresenhamAccumulator + (s.activeStepper.targetSteps : Int)
    if s.activeSegment_bresenhamTriggerThreshold < accumulator then
      ({ s with
           activeSegment_timeRemaining := s.activeSegment_timeRemaining - 1,
           activeStepper :=
             { s.activeStepper with
                 bresenhamAccumulator := accumulator - (s.activeSegment_totalTime : Int),
                 stepsRemaining := (s.activeStepper.stepsRemaining + (2 ^ 32 - 1)) % 2 ^ 32 },
           stepperPosition := s.stepperPosition + s.activeStepper.direction }, 1)
    else
      ({ s with
           activeSegment_timeRemaining := s.activeSegment_timeRemaining - 1,
           activeStepper := { s.activeStepper with bresenhamAccumulator := accumulator } }, 0)
  else
    (s, 0)

/-- One firing of `ISR(TIMER1_COMPA_vect)`: the stepping phase followed,
when the remaining time is zero, by an attempt to load the next segment
(which re-enables the drivers on success).  Returns the new state and the
step mask passed to `step()` during this tick. -/
def isrTick (s : NodeState) : NodeState × Nat :=
  let stepped := isrStepPhase s
  if stepped.1.activeSegment_timeRemaining = 0 then
    let loaded := loadSegmentIntoStepGenerator stepped.1
    if loaded.1 = 1 then
      ({ loaded.2 with driversEnabled := true }, stepped.2)
    else
      (loaded.2, stepped.2)
  else
    stepped

/-- Run `isrRun s n`: runs the ISR for `n` consecutive ticks.  Returns the
final state, the total number of step pulses emitted on stepper 1, and the
signed sum of the emitted steps (each pulse weighted by the direction the
stepper had on that tick). -/
def isrRun : NodeState → Nat → NodeState × Nat × Int
  | s, 0 => (s, 0, 0)
  | s, n + 1 =>
    let stepped := isrTick s
    let rest := isrRun stepped.1 n
    (rest.1, stepped.2 + rest.2.1,
      (if stepped.2 = 1 then s.activeStepper.direction else 0) + rest.2.2)

-- ----- PURE BRESENHAM MODEL -----

/-- One tick of the time-domain Bresenham recurrence of the ISR, abstracted
from the surrounding state: add `targetSteps` to the accumulator and, on
crossing the threshold, subtract `totalTime` and report a step. -/
def bresTick (targetSteps totalTime : Nat) (threshold accumulator : Int) : Int × Bool :=
  let accumulator := accumulator + (targetSteps : Int)
  if threshold < accumulator then (accumulator - (totalTime : Int), true)
  else (accumulator, false)

/-- Runs `n` ticks of the Bresenham recurrence: final accumulator and number of
steps reported. -/
def bresRun (targetSteps totalTime : Nat) (threshold : Int) (accumulator : Int) :
    Nat → Int × Nat
  | 0 => (accumulator, 0)
  | n + 1 =>
    let t := bresTick targetSteps totalTime threshold accumulator
    let rest := bresRun targetSteps totalTime threshold t.1 n
    (rest.1, (if t.2 then 1 else 0) + rest.2)

lemma bresRun_succ (K T : Nat) (thr a : Int) (n : Nat) :
    bresRun K T thr a (n + 1) =
      ((bresRun K T thr (bresTick K T thr a).1 n).1,
        (if (bresTick K T thr a).2 then 1 else 0) + (bresRun K T thr (bresTick K T thr a).1 n).2) := by
  rfl

/-- The accumulator is an exact linear function of ticks and emitted steps. -/
lemma bresRun_linear (K T : Nat) (thr : Int) :
    ∀ (n : Nat) (a : Int),
      (bresRun K T thr a n).1 = a + n * (K : Int) - ((bresRun K T thr a n).2 : Int) * (T : Int) := by
  intro n
  induction n with
  | zero => intro a; simp [bresRun]
  | succ n ih =>
    intro a
    by_cases hf : thr < a + (K : Int)
    · have ht : bresTick K T thr a = (a + (K : Int) - (T : Int), true) := by
        simp [bresTick, hf]
      rw [bresRun_succ, ht]
      simp only [ih, if_true]
      push_cast
      ring
    · have ht : bresTick K T thr a = (a + (K : Int), false) := by
        simp [bresTick, hf]
      rw [bresRun_succ, ht]
      simp only [ih, if_false, Bool.false_eq_true]
      push_cast
      ring

/-- The Bresenham accumulator stays in the half-open window
`(threshold - totalTime, threshold]` whenever it starts there and
`targetSteps ≤ totalTime`. -/
lemma bresRun_bounds (K T : Nat) (thr : Int) (hKT : K ≤ T) :
    ∀ (n : Nat) (a : Int), a ≤ thr → thr - (T : Int) < a →
      (bresRun K T thr a n).1 ≤ thr ∧ thr - (T : Int) < (bresRun K T thr a n).1 := by
  have hKT' : (K : Int) ≤ (T : Int) := by exact_mod_cast hKT
  have hK0 : (0 : Int) ≤ (K : Int) := by positivity
  intro n
  induction n with
  | zero => intro a h1 h2; simpa [bresRun] using ⟨h1, h2⟩
  | succ n ih =>
    intro a h1 h2
    by_cases hf : thr < a + (K : Int)
    · have ht : bresTick K T thr a = (a + (K : Int) - (T : Int), true) := by
        simp [bresTick, hf]
      rw [bresRun_succ, ht]
      exact ih (a + (K : Int) - (T : Int)) (by omega) (by omega)
    · have ht : bresTick K T thr a = (a + (K : Int), false) := by
        simp [bresTick, hf]
      rw [bresRun_succ, ht]
      exact ih (a + (K : Int)) (by omega) (by omega)

/-- Core Bresenham counting theorem: starting from a zero accumulator with
threshold `T / 2`, running `T` ticks emits exactly `K` steps when `K ≤ T`. -/
lemma bresRun_count (K T : Nat) (hKT : K ≤ T) :
    (bresRun K T ((T / 2 : Nat) : Int) 0 T).2 = K := by
  rcases Nat.eq_zero_or_pos T with hT | hT
  · have hK : K = 0 := by omega
    subst hT; subst hK; simp [bresRun]
  · have hthr0 : (0 : Int) ≤ ((T / 2 : Nat) : Int) := by positivity
    have hthrT : ((T / 2 : Nat) : Int) < (T : Int) := by
      have : T / 2 < T := Nat.div_lt_self hT (by norm_num)
      exact_mod_cast this
    obtain ⟨hu, hl⟩ :=
      bresRun_bounds K T ((T / 2 : Nat) : Int) hKT T 0 hthr0 (by omega)
    have hlin := bresRun_linear K T ((T / 2 : Nat) : Int) T 0
    set c := (bresRun K T ((T / 2 : Nat) : Int) 0 T).2 with hc
    rw [hlin] at hu hl
    have hT' : (0 : Int) < (T : Int) := by exact_mod_cast hT
    have hfact : (0 : Int) + (T : Int) * (K : Int) - (c : Int) * (T : Int)
        = (T : Int) * ((K : Int) - (c : Int)) := by ring
    have hdle : (K : Int) - (c : Int) < 1 := by
      by_contra hcon
      push_neg at hcon
      have : (T : Int) * 1 ≤ (T : Int) * ((K : Int) - (c : Int)) :=
        mul_le_mul_of_nonneg_left hcon (le_of_lt hT')
      omega
    have hdge : (-1 : Int) < (K : Int) - (c : Int) := by
      by_contra hcon
      push_neg at hcon
      have : (T : Int) * ((K : Int) - (c : Int)) ≤ (T : Int) * (-1) :=
        mul_le_mul_of_nonneg_left hcon (le_of_lt hT')
      omega
    omega

-- ----- ISR / BRESENHAM CORRESPONDENCE -----

/-- While segment time remains, a single ISR stepping phase acts on the
accumulator exactly as `bresTick`, and touches the position ledger and
`stepsRemaining` exactly when a step fires. -/
lemma isrStepPhase_spec (s : NodeState) (h : 0 < s.activeSegment_timeRemaining) :
    isrStepPhase s =
      ({ s with
          activeSegment_timeRemaining := s.activeSegment_timeRemaining - 1,
          activeStepper :=
            { s.activeStepper with
                bresenhamAccumulator :=
                  (bresTick s.activeStepper.targetSteps s.activeSegment_totalTime
                    s.activeSegment_bresenhamTriggerThreshold
                    s.activeStepper.bresenhamAccumulator).1,
                stepsRemaining :=
                  if (bresTick s.activeStepper.targetSteps s.activeSegment_totalTime
                      s.activeSegment_bresenhamTriggerThreshold
                      s.activeStepper.bresenhamAccumulator).2 then
                    (s.activeStepper.stepsRemaining + (2 ^ 32 - 1)) % 2 ^ 32
                  else s.activeStepper.stepsRemaining },
          stepperPosition :=
            if (bresTick s.activeStepper.targetSteps s.activeSegment_totalTime
                s.activeSegment_bresenhamTriggerThreshold
                s.activeStepper.bresenhamAccumulator).2 then
              s.stepperPosition + s.activeStepper.direction
            else s.stepperPosition },
        if (bresTick s.activeStepper.targetSteps s.activeSegment_totalTime
            s.activeSegment_bresenhamTriggerThreshold
            s.activeStepper.bresenhamAccumulator).2 then 1 else 0) := by
  by_cases hf : s.activeSegment_bresenhamTriggerThreshold <
      s.activeStepper.bresenhamAccumulator + (s.activeStepper.targetSteps : Int)
  · simp [isrStepPhase, bresTick, h, hf]
  · simp [isrStepPhase, bresTick, h, hf]

/-- The segment loader never touches the position ledger. -/
lemma loadSegment_preserves_position (s : NodeState) :
    (loadSegmentIntoStepGenerator s).2.stepperPosition = s.stepperPosition := by
  simp only [loadSegmentIntoStepGenerator, setStepDirection, stepper1_forward,
    stepper1_reverse]
  split_ifs <;> rfl

/-- The step mask reported by a full ISR tick is the step mask of its
stepping phase (the trailing load attempt emits no pulse). -/
lemma isrTick_snd (s : NodeState) : (isrTick s).2 = (isrStepPhase s).2 := by
  simp only [isrTick]
  split
  · split <;> rfl
  · rfl

/-- A full ISR tick moves the position ledger exactly as its stepping
phase does (the trailing load attempt never touches the ledger). -/
lemma isrTick_fst_position (s : NodeState) :
    (isrTick s).1.stepperPosition = (isrStepPhase s).1.stepperPosition := by
  simp only [isrTick]
  split
  · split
    · dsimp only
      rw [loadSegment_preserves_position]
    · dsimp only
      rw [loadSegment_preserves_position]
  · rfl

/-- While more segment time remains after the decrement, the ISR tick is
exactly the stepping phase: no load attempt happens. -/
lemma isrTick_no_load (s : NodeState) (h : 0 < s.activeSegment_timeRemaining)
    (h2 : s.activeSegment_timeRemaining - 1 ≠ 0) : isrTick s = isrStepPhase s := by
  have hmid : (isrStepPhase s).1.activeSegment_timeRemaining
      = s.activeSegment_timeRemaining - 1 := by
    rw [isrStepPhase_spec s h]
  simp only [isrTick, hmid, h2, if_false]

/-- Running the ISR for `n ≤ timeRemaining` ticks matches the pure
Bresenham recurrence: the pulses on stepper 1 are the Bresenham steps, and
the position ledger moves by `direction` times the pulse count.  (A segment
load can only happen on the last of these ticks, after that tick's step,
and it never touches the position ledger.) -/
lemma isrRun_matches_bres :
    ∀ (n : Nat) (s : NodeState), n ≤ s.activeSegment_timeRemaining →
      (isrRun s n).2.1 =
        (bresRun s.activeStepper.targetSteps s.activeSegment_totalTime
          s.activeSegment_bresenhamTriggerThreshold s.activeStepper.bresenhamAccumulator n).2 ∧
      (isrRun s n).1.stepperPosition =
        s.stepperPosition + s.activeStepper.direction *
          ((bresRun s.activeStepper.targetSteps s.activeSegment_totalTime
            s.activeSegment_bresenhamTriggerThreshold s.activeStepper.bresenhamAccumulator n).2 : Int) ∧
      (isrRun s n).2.2 = s.activeStepper.direction *
          ((bresRun s.activeStepper.targetSteps s.activeSegment_totalTime
            s.activeSegment_bresenhamTriggerThreshold s.activeStepper.bresenhamAccumulator n).2 : Int) := by
  intro n
  induction n with
  | zero => intro s _; simp [isrRun, bresRun]
  | succ n ih =>
    intro s hn
    have htr : 0 < s.activeSegment_timeRemaining := by omega
    have hphase := isrStepPhase_spec s htr
    have hmask : (isrTick s).2 =
        if (bresTick s.activeStepper.targetSteps s.activeSegment_totalTime
          s.activeSegment_bresenhamTriggerThreshold s.activeStepper.bresenhamAccumulator).2
        then 1 else 0 := by
      rw [isrTick_snd, hphase]
    have hpos : (isrTick s).1.stepperPosition =
        if (bresTick s.activeStepper.targetSteps s.activeSegment_totalTime
          s.activeSegment_bresenhamTriggerThreshold s.activeStepper.bresenhamAccumulator).2
        then s.stepperPosition + s.activeStepper.direction else s.stepperPosition := by
      rw [isrTick_fst_position, hphase]
    rcases Nat.eq_zero_or_pos n with hn0 | hnpos
    · subst hn0
      simp only [isrRun, bresRun_succ, bresRun, hmask, hpos]
      rcases ht2 : (bresTick s.activeStepper.targetSteps s.activeSegment_totalTime
          s.activeSegment_bresenhamTriggerThreshold s.activeStepper.bresenhamAccumulator).2 with _ | _
      · simp
      · simp
    · have hnl := isrTick_no_load s htr (by omega)
      obtain ⟨ih1, ih2, ih3⟩ := ih (isrTick s).1 (by
        rw [hnl, hphase]
        dsimp only
        omega)
      rw [hnl, hphase] at ih1 ih2 ih3
      dsimp only at ih1 ih2 ih3
      simp only [isrRun]
      rw [hnl, hphase]
      dsimp only
      refine ⟨?_, ?_, ?_⟩
      · rw [ih1, bresRun_succ]
      · rw [ih2, bresRun_succ]
        rcases ht2 : (bresTick s.activeStepper.targetSteps s.activeSegment_totalTime
            s.activeSegment_bresenhamTriggerThreshold s.activeStepper.bresenhamAccumulator).2 with _ | _
        · simp only [ht2, if_false, Bool.false_eq_true]
          push_cast
          ring
        · simp only [ht2, if_true]
          push_cast
          ring
      · rw [ih3, bresRun_succ]
        rcases ht2 : (bresTick s.activeStepper.targetSteps s.activeSegment_totalTime
            s.activeSegment_bresenhamTriggerThreshold s.activeStepper.bresenhamAccumulator).2 with _ | _
        · simp only [ht2, if_false, Bool.false_eq_true]
          push_cast
          ring
        · simp only [ht2, if_true]
          push_cast
          ring

-- ----- CLAIM C1: BRESENHAM STEP COUNT -----

/-- C1: for an active segment with `targetSteps = K` and
`segmentTime = T`, `0 ≤ K ≤ T ≤ 2^24`, with the accumulator starting at 0
and the threshold equal to `T / 2` rounded down, running the step-generator
ISR for `T` ticks emits exactly `K` step pulses on the axis. -/
theorem C1_bresenham_step_count (s : NodeState) (K T : Nat)
    (hK : s.activeStepper.targetSteps = K)
    (ha : s.activeStepper.bresenhamAccumulator = 0)
    (hthr : s.activeSegment_bresenhamTriggerThreshold = ((T / 2 : Nat) : Int))
    (htot : s.activeSegment_totalTime = T)
    (htm : s.activeSegment_timeRemaining = T)
    (hKT : K ≤ T) (hT : T ≤ 2 ^ 24) :
    (isrRun s T).2.1 = K := by
  obtain ⟨h1, _, _⟩ := isrRun_matches_bres T s (by omega)
  rw [h1, hK, ha, hthr, htot, bresRun_count K T hKT]

/-- A concrete idle-buffer node state with an armed active segment of
`targetSteps = 3` over `segmentTime = 7`. -/
def c1WitnessState : NodeState :=
  { activeStepper :=
      { stepsRemaining := 3, targetSteps := 3, bresenhamAccumulator := 0, direction := 1 },
    activeSegment_bresenhamTriggerThreshold := 3,
    activeSegment_timeRemaining := 7,
    activeSegment_totalTime := 7,
    activeSegment_segmentKey := 0,
    waitingForSync := 0,
    stepperPosition := 0,
    motionBuffer := List.replicate 48 default,
    motionBuffer_readPosition := 0,
    motionBuffer_writePosition := 0,
    motionBuffer_syncSearchPosition := 0,
    directionPin := true,
    driversEnabled := true,
    tcnt := 0 }

/-- C1 witness: the step-count theorem applied at `K = 3`, `T = 7`. -/
theorem C1_bresenham_step_count_witness : (isrRun c1WitnessState 7).2.1 = 3 :=
  C1_bresenham_step_count c1WitnessState 3 7 rfl rfl (by decide) rfl rfl
    (by decide) (by decide)

-- ----- CLAIM C8: POSITION LEDGER -----

/-- The step mask of one ISR tick is 0 or 1. -/
lemma isrTick_mask_le_one (s : NodeState) : (isrTick s).2 ≤ 1 := by
  rw [isrTick_snd]
  rcases Nat.eq_zero_or_pos s.activeSegment_timeRemaining with h | h
  · simp [isrStepPhase, h]
  · rw [isrStepPhase_spec s h]
    dsimp only
    split <;> omega

/-- The position ledger moves by `direction` on a pulse tick and is
unchanged on a non-pulse tick. -/
lemma isrTick_position_eq (s : NodeState) :
    (isrTick s).1.stepperPosition =
      if (isrTick s).2 = 1 then s.stepperPosition + s.activeStepper.direction
      else s.stepperPosition := by
  rw [isrTick_fst_position, isrTick_snd]
  rcases Nat.eq_zero_or_pos s.activeSegment_timeRemaining with h | h
  · simp [isrStepPhase, h]
  · rw [isrStepPhase_spec s h]
    dsimp only
    rcases ht2 : (bresTick s.activeStepper.targetSteps s.activeSegment_totalTime
        s.activeSegment_bresenhamTriggerThreshold s.activeStepper.bresenhamAccumulator).2 with _ | _
    · simp
    · simp

/-- After any ISR run, the position equals the start position plus the
signed sum of the emitted steps. -/
lemma isrRun_position_signed :
    ∀ (n : Nat) (s : NodeState),
      (isrRun s n).1.stepperPosition = s.stepperPosition + (isrRun s n).2.2 := by
  intro n
  induction n with
  | zero => intro s; simp [isrRun]
  | succ n ih =>
    intro s
    simp only [isrRun]
    rw [ih, isrTick_position_eq]
    by_cases h1 : (isrTick s).2 = 1 <;> simp [h1] <;> ring

/-- C8: on every ISR tick, `position` changes by exactly `direction` when a
step pulse is emitted on the axis and is unchanged otherwise; at most one
pulse per axis occurs per tick; and after any run the position equals the
start position plus the signed sum of emitted steps. -/
theorem C8_position_ledger (s : NodeState) (n : Nat) :
    (isrTick s).2 ≤ 1 ∧
    (isrTick s).1.stepperPosition =
      (if (isrTick s).2 = 1 then s.stepperPosition + s.activeStepper.direction
       else s.stepperPosition) ∧
    (isrRun s n).1.stepperPosition = s.stepperPosition + (isrRun s n).2.2 :=
  ⟨isrTick_mask_le_one s, isrTick_position_eq s, isrRun_position_signed n s⟩

-- ----- LIST HELPERS -----

lemma getD_set_self {α : Type} (l : List α) (i : Nat) (a d : α) (h : i < l.length) :
    (l.set i a).getD i d = a := by
  rw [List.getD_eq_getElem?_getD, List.getElem?_set_self', List.getElem?_eq_getElem h]
  rfl

lemma getD_set_other {α : Type} (l : List α) {i j : Nat} (a d : α) (h : i ≠ j) :
    (l.set i a).getD j d = l.getD j d := by
  rw [List.getD_eq_getElem?_getD, List.getElem?_set_ne h, List.getD_eq_getElem?_getD]

-- ----- CLAIM C3: BUFFER-FULL ATOMICITY -----

/-- The number of segments currently buffered, measured from the two
circular indexes (both in `[0, motionBuffer_length)`). -/
def motionBufferCount (s : NodeState) : Nat :=
  (motionBuffer_length + s.motionBuffer_writePosition - s.motionBuffer_readPosition)
    % motionBuffer_length

/-- C3: the enqueue returns 0 (full) iff `(write+1) mod C = read`, i.e.
iff exactly `C-1` segments are buffered, and in that case the whole node
state — write position and every buffer slot included — is unchanged. -/
theorem C3_buffer_full_atomicity (s : NodeState) (rx : List Nat) (payloadLocation : Nat)
    (hw : s.motionBuffer_writePosition < motionBuffer_length)
    (hr : s.motionBuffer_readPosition < motionBuffer_length) :
    ((loadSegmentIntoMotionBuffer s rx payloadLocation).1 = 0 ↔
      (s.motionBuffer_writePosition + 1) % motionBuffer_length = s.motionBuffer_readPosition) ∧
    ((loadSegmentIntoMotionBuffer s rx payloadLocation).1 = 0 ↔
      motionBufferCount s = motionBuffer_length - 1) ∧
    ((loadSegmentIntoMotionBuffer s rx payloadLocation).1 = 0 →
      (loadSegmentIntoMotionBuffer s rx payloadLocation).2 = s) := by
  have hwrap : (if s.motionBuffer_writePosition + 1 = motionBuffer_length then 0
      else s.motionBuffer_writePosition + 1)
      = (s.motionBuffer_writePosition + 1) % motionBuffer_length := by
    simp only [motionBuffer_length] at hw ⊢
    split <;> omega
  simp only [loadSegmentIntoMotionBuffer, hwrap]
  split
  case isTrue h =>
    refine ⟨⟨fun _ => h, fun _ => rfl⟩, ⟨fun _ => ?_, fun _ => rfl⟩, fun _ => rfl⟩
    simp only [motionBufferCount, motionBuffer_length] at hw hr h ⊢
    omega
  case isFalse h =>
    refine ⟨⟨fun h0 => absurd h0 one_ne_zero, fun hc => absurd hc h⟩,
      ⟨fun h0 => absurd h0 one_ne_zero, fun hc => absurd ?_ h⟩,
      fun h0 => absurd h0 one_ne_zero⟩
    simp only [motionBufferCount, motionBuffer_length] at hw hr hc ⊢
    omega

/-- A quiescent node state: empty motion buffer, no active segment. -/
def idleNodeState : NodeState :=
  { activeStepper :=
      { stepsRemaining := 0, targetSteps := 0, bresenhamAccumulator := 0, direction := -1 },
    activeSegment_bresenhamTriggerThreshold := 0,
    activeSegment_timeRemaining := 0,
    activeSegment_totalTime := 0,
    activeSegment_segmentKey := 0,
    waitingForSync := 0,
    stepperPosition := 0,
    motionBuffer := List.replicate 48 default,
    motionBuffer_readPosition := 0,
    motionBuffer_writePosition := 0,
    motionBuffer_syncSearchPosition := 0,
    directionPin := false,
    driversEnabled := false,
    tcnt := 0 }

/-- An idle node whose ring indexes make the buffer full (`write = 47`,
`read = 0`). -/
def c3WitnessState : NodeState := { idleNodeState with motionBuffer_writePosition := 47 }

/-- C3 witness: the atomicity theorem applied to a concretely full buffer. -/
theorem C3_buffer_full_atomicity_witness :
    ((loadSegmentIntoMotionBuffer c3WitnessState [] 0).1 = 0 ↔
      (c3WitnessState.motionBuffer_writePosition + 1) % motionBuffer_length
        = c3WitnessState.motionBuffer_readPosition) ∧
    ((loadSegmentIntoMotionBuffer c3WitnessState [] 0).1 = 0 ↔
      motionBufferCount c3WitnessState = motionBuffer_length - 1) ∧
    ((loadSegmentIntoMotionBuffer c3WitnessState [] 0).1 = 0 →
      (loadSegmentIntoMotionBuffer c3WitnessState [] 0).2 = c3WitnessState) :=
  C3_buffer_full_atomicity c3WitnessState [] 0 (by decide) (by decide)

-- ----- CLAIM C6: ENQUEUE SUCCESS POSTCONDITION -----

/-- C6: when the enqueue succeeds, the slot at the new write position holds
exactly the decoded stepRequest payload, and the published write position
is `(old write + 1) mod C`. -/
theorem C6_enqueue_success_postcondition (s : NodeState) (rx : List Nat)
    (payloadLocation : Nat)
    (hw : s.motionBuffer_writePosition < motionBuffer_length)
    (hlen : s.motionBuffer.length = motionBuffer_length)
    (hroom : (s.motionBuffer_writePosition + 1) % motionBuffer_length
      ≠ s.motionBuffer_readPosition) :
    (loadSegmentIntoMotionBuffer s rx payloadLocation).1 = 1 ∧
    (loadSegmentIntoMotionBuffer s rx payloadLocation).2.motionBuffer_writePosition
      = (s.motionBuffer_writePosition + 1) % motionBuffer_length ∧
    (loadSegmentIntoMotionBuffer s rx payloadLocation).2.motionBuffer.getD
        ((s.motionBuffer_writePosition + 1) % motionBuffer_length) default
      = decodedStepRequest rx payloadLocation := by
  have hwrap : (if s.motionBuffer_writePosition + 1 = motionBuffer_length then 0
      else s.motionBuffer_writePosition + 1)
      = (s.motionBuffer_writePosition + 1) % motionBuffer_length := by
    simp only [motionBuffer_length] at hw ⊢
    split <;> omega
  simp only [loadSegmentIntoMotionBuffer, hwrap, if_neg hroom]
  refine ⟨trivial, trivial, ?_⟩
  rw [getD_set_self]
  · rfl
  · rw [hlen]
    simp only [motionBuffer_length]
    omega

/-- A concrete 9-byte stepRequest payload: target `-5` (int24 LE
`0xFFFFFB`), segmentTime `600`, key `9`, incremental, no sync wait. -/
def c6WitnessRx : List Nat := [0xFB, 0xFF, 0xFF, 0x58, 0x02, 0x00, 9, 0, 0]

/-- C6 witness: the enqueue postcondition applied to the idle node and the
concrete payload (the decoded slot carries target `-5 * 4 = -20`). -/
theorem C6_enqueue_success_postcondition_witness :
    ((loadSegmentIntoMotionBuffer idleNodeState c6WitnessRx 0).1 = 1 ∧
      (loadSegmentIntoMotionBuffer idleNodeState c6WitnessRx 0).2.motionBuffer_writePosition
        = (idleNodeState.motionBuffer_writePosition + 1) % motionBuffer_length ∧
      (loadSegmentIntoMotionBuffer idleNodeState c6WitnessRx 0).2.motionBuffer.getD
          ((idleNodeState.motionBuffer_writePosition + 1) % motionBuffer_length) default
        = decodedStepRequest c6WitnessRx 0) ∧
    decodedStepRequest c6WitnessRx 0
      = { stepper_target := -20, segmentTime := 600, segmentKey := 9,
          absoluteMove := 0, waitForSync := 0 } :=
  ⟨C6_enqueue_success_postcondition idleNodeState c6WitnessRx 0 (by decide) (by decide)
      (by decide),
    by decide⟩

-- ----- CLAIM C4: LOADER EMPTY / BLOCKED / SUCCESS -----

/-- C4: the loader returns 0 with the state untouched when the buffer is
empty; when the next slot is flagged `waitForSync` it returns 0 having only
raised the global `waitingForSync` flag (the read position does not
advance); on success it returns 1, clears `waitingForSync`, and advances
the read position by one modulo C. -/
theorem C4_loader_empty_blocked_success (s : NodeState)
    (hr : s.motionBuffer_readPosition < motionBuffer_length) :
    (s.motionBuffer_readPosition = s.motionBuffer_writePosition →
      loadSegmentIntoStepGenerator s = (0, s)) ∧
    (s.motionBuffer_readPosition ≠ s.motionBuffer_writePosition →
      (s.motionBuffer.getD ((s.motionBuffer_readPosition + 1) % motionBuffer_length)
          default).waitForSync = 1 →
      loadSegmentIntoStepGenerator s = (0, { s with waitingForSync := 1 })) ∧
    (s.motionBuffer_readPosition ≠ s.motionBuffer_writePosition →
      (s.motionBuffer.getD ((s.motionBuffer_readPosition + 1) % motionBuffer_length)
          default).waitForSync ≠ 1 →
      (loadSegmentIntoStepGenerator s).1 = 1 ∧
      (loadSegmentIntoStepGenerator s).2.waitingForSync = 0 ∧
      (loadSegmentIntoStepGenerator s).2.motionBuffer_readPosition
        = (s.motionBuffer_readPosition + 1) % motionBuffer_length) := by
  have hwrap : (if s.motionBuffer_readPosition + 1 = motionBuffer_length then 0
      else s.motionBuffer_readPosition + 1)
      = (s.motionBuffer_readPosition + 1) % motionBuffer_length := by
    simp only [motionBuffer_length] at hr ⊢
    split <;> omega
  refine ⟨?_, ?_, ?_⟩
  · intro h
    simp [loadSegmentIntoStepGenerator, h]
  · intro h hws
    simp only [loadSegmentIntoStepGenerator, hwrap, if_neg h, if_pos hws]
  · intro h hws
    simp only [loadSegmentIntoStepGenerator, hwrap, if_neg h, if_neg hws]
    refine ⟨trivial, ?_, ?_⟩ <;>
      (dsimp only [setStepDirection, stepper1_forward, stepper1_reverse]
       split_ifs <;> rfl)

/-- An idle node with one buffered incremental segment in slot 1 flagged
`waitForSync = 1`. -/
def c4WitnessState : NodeState :=
  { idleNodeState with
      motionBuffer := (List.replicate 48 default).set 1
        { stepper_target := 40, segmentTime := 100, segmentKey := 5,
          absoluteMove := 0, waitForSync := 1 },
      motionBuffer_writePosition := 1 }

/-- C4 witness: the loader theorem applied to a concrete state whose next
slot is flagged `waitForSync`, so the blocked branch fires. -/
theorem C4_loader_empty_blocked_success_witness :
    ((c4WitnessState.motionBuffer.getD
        ((c4WitnessState.motionBuffer_readPosition + 1) % motionBuffer_length)
        default).waitForSync = 1) ∧
    loadSegmentIntoStepGenerator c4WitnessState
      = (0, { c4WitnessState with waitingForSync := 1 }) :=
  ⟨by decide,
    ((C4_loader_empty_blocked_success c4WitnessState (by decide)).2.1
      (by decide) (by decide))⟩

-- ----- CLAIM C9: STATUS REPLY FORMAT -----

/-- C9: every status reply is exactly 7 payload bytes
`[statusCode, segmentKey, timeRemaining lo, timeRemaining mid,
timeRemaining hi, readPosition, writePosition]`; the getStatus service is
this reply with code 1, and the stepRequest service replies with the
enqueue result as the status code. -/
theorem C9_status_reply_format (s : NodeState) (rx tx : List Nat)
    (payloadLocation responsePort statusCode : Nat)
    (hlen : payloadLocation + 7 ≤ tx.length) :
    ((transmitStatus s tx payloadLocation responsePort statusCode).payloadLength = 7 ∧
     (transmitStatus s tx payloadLocation responsePort statusCode).port = responsePort) ∧
    ((transmitStatus s tx payloadLocation responsePort statusCode).buffer.getD
        payloadLocation 0 = statusCode ∧
     (transmitStatus s tx payloadLocation responsePort statusCode).buffer.getD
        (payloadLocation + 1) 0 = s.activeSegment_segmentKey ∧
     (transmitStatus s tx payloadLocation responsePort statusCode).buffer.getD
        (payloadLocation + 2) 0 = s.activeSegment_timeRemaining % 2 ^ 8 ∧
     (transmitStatus s tx payloadLocation responsePort statusCode).buffer.getD
        (payloadLocation + 3) 0 = s.activeSegment_timeRemaining / 2 ^ 8 % 2 ^ 8 ∧
     (transmitStatus s tx payloadLocation responsePort statusCode).buffer.getD
        (payloadLocation + 4) 0 = s.activeSegment_timeRemaining / 2 ^ 16 % 2 ^ 8 ∧
     (transmitStatus s tx payloadLocation responsePort statusCode).buffer.getD
        (payloadLocation + 5) 0 = s.motionBuffer_readPosition ∧
     (transmitStatus s tx payloadLocation responsePort statusCode).buffer.getD
        (payloadLocation + 6) 0 = s.motionBuffer_writePosition) ∧
    svc_getStatus s tx payloadLocation
      = transmitStatus s tx payloadLocation gestaltPort_getStatus 1 ∧
    (svc_stepRequest s rx tx payloadLocation).2
      = transmitStatus (loadSegmentIntoMotionBuffer s rx payloadLocation).2 tx
          payloadLocation gestaltPort_stepRequest
          (loadSegmentIntoMotionBuffer s rx payloadLocation).1 := by
  have h0 : payloadLocation < tx.length := by omega
  have h1 : payloadLocation + 1 < tx.length := by omega
  have h2 : payloadLocation + 2 < tx.length := by omega
  have h3 : payloadLocation + 3 < tx.length := by omega
  have h4 : payloadLocation + 4 < tx.length := by omega
  have h5 : payloadLocation + 5 < tx.length := by omega
  have h6 : payloadLocation + 6 < tx.length := by omega
  refine ⟨⟨rfl, rfl⟩, ⟨?_, ?_, ?_, ?_, ?_, ?_, ?_⟩, rfl, rfl⟩ <;>
    (simp [transmitStatus, writeTxBuffer_uint24, List.getD_eq_getElem?_getD,
       List.getElem?_set, List.getElem_set, h0, h1, h2, h3, h4, h5, h6]
     try split_ifs <;> omega)

/-- C9 witness: the status-reply theorem applied to the idle node with a
7-byte zeroed TX buffer, port 15 and status code 1. -/
theorem C9_status_reply_format_witness :
    ((transmitStatus idleNodeState (List.replicate 7 0) 0 15 1).payloadLength = 7 ∧
     (transmitStatus idleNodeState (List.replicate 7 0) 0 15 1).port = 15) ∧
    ((transmitStatus idleNodeState (List.replicate 7 0) 0 15 1).buffer.getD 0 0 = 1 ∧
     (transmitStatus idleNodeState (List.replicate 7 0) 0 15 1).buffer.getD 1 0
       = idleNodeState.activeSegment_segmentKey ∧
     (transmitStatus idleNodeState (List.replicate 7 0) 0 15 1).buffer.getD 2 0
       = idleNodeState.activeSegment_timeRemaining % 2 ^ 8 ∧
     (transmitStatus idleNodeState (List.replicate 7 0) 0 15 1).buffer.getD 3 0
       = idleNodeState.activeSegment_timeRemaining / 2 ^ 8 % 2 ^ 8 ∧
     (transmitStatus idleNodeState (List.replicate 7 0) 0 15 1).buffer.getD 4 0
       = idleNodeState.activeSegment_timeRemaining / 2 ^ 16 % 2 ^ 8 ∧
     (transmitStatus idleNodeState (List.replicate 7 0) 0 15 1).buffer.getD 5 0
       = idleNodeState.motionBuffer_readPosition ∧
     (transmitStatus idleNodeState (List.replicate 7 0) 0 15 1).buffer.getD 6 0
       = idleNodeState.motionBuffer_writePosition) ∧
    svc_getStatus idleNodeState (List.replicate 7 0) 0
      = transmitStatus idleNodeState (List.replicate 7 0) 0 gestaltPort_getStatus 1 ∧
    (svc_stepRequest idleNodeState c6WitnessRx (List.replicate 7 0) 0).2
      = transmitStatus (loadSegmentIntoMotionBuffer idleNodeState c6WitnessRx 0).2
          (List.replicate 7 0) 0 gestaltPort_stepRequest
          (loadSegmentIntoMotionBuffer idleNodeState c6WitnessRx 0).1 :=
  C9_status_reply_format idleNodeState c6WitnessRx (List.replicate 7 0) 0 15 1 (by decide)

-- ----- CLAIM C7: INT24 CODEC ROUND-TRIP -----

/-- C7: writing any `v` with `-2^23 ≤ v < 2^23` as a little-endian int24
and reading it back (sign-extending when bit 23 is set) yields `v`. -/
theorem C7_int24_roundtrip (v : Int) (tx : List Nat) (payloadLocation payloadIndex : Nat)
    (hlo : -(2 ^ 23) ≤ v) (hhi : v < 2 ^ 23)
    (hlen : payloadLocation + payloadIndex + 3 ≤ tx.length) :
    readRxBuffer_int24 (writeTxBuffer_int24 v tx payloadLocation payloadIndex)
      payloadLocation payloadIndex = v := by
  set n := uint32_ofInt32 v with hn
  have hi0 : payloadLocation + payloadIndex < tx.length := by omega
  have hi1 : payloadLocation + payloadIndex + 1 < tx.length := by omega
  have hi2 : payloadLocation + payloadIndex + 2 < tx.length := by omega
  have hb0 : (writeTxBuffer_uint24 n tx payloadLocation payloadIndex).getD
      (payloadLocation + payloadIndex) 0 = n % 2 ^ 8 := by
    simp [writeTxBuffer_uint24, List.getD_eq_getElem?_getD, List.getElem?_set,
      List.getElem_set, hi0, hi1, hi2]
  have hb1 : (writeTxBuffer_uint24 n tx payloadLocation payloadIndex).getD
      (payloadLocation + payloadIndex + 1) 0 = n / 2 ^ 8 % 2 ^ 8 := by
    simp [writeTxBuffer_uint24, List.getD_eq_getElem?_getD, List.getElem?_set,
      List.getElem_set, hi0, hi1, hi2]
  have hb2 : (writeTxBuffer_uint24 n tx payloadLocation payloadIndex).getD
      (payloadLocation + payloadIndex + 2) 0 = n / 2 ^ 16 % 2 ^ 8 := by
    simp [writeTxBuffer_uint24, List.getD_eq_getElem?_getD, List.getElem?_set,
      List.getElem_set, hi0, hi1, hi2]
  have hn' : n = (v % 2 ^ 32).toNat := rfl
  simp only [writeTxBuffer_int24, readRxBuffer_int24, readRxBuffer_uint24,
    int32_ofUInt32, ← hn]
  rw [hb0, hb1, hb2]
  split_ifs <;> omega

/-- C7 witness: the round trip at `v = -300000` through a 3-byte buffer. -/
theorem C7_int24_roundtrip_witness :
    readRxBuffer_int24 (writeTxBuffer_int24 (-300000) (List.replicate 3 0) 0 0) 0 0
      = -300000 :=
  C7_int24_roundtrip (-300000) (List.replicate 3 0) 0 0 (by decide) (by decide) (by decide)

-- ----- CLAIM C5: SYNC MONOTONICITY -----

/-- Forward ring distance from `p` to `w` in the circular motion buffer. -/
def ringDistance (p w : Nat) : Nat :=
  (motionBuffer_length + w - p) % motionBuffer_length

/-- Characterization of the `svc_sync` scan loop: with in-range positions
and enough fuel it either finds the first `waitForSync` slot after `p`
(within the ring distance to the write position) or reaches the write
position having seen none. -/
lemma syncScan_char (buf : List MotionSegment) (w : Nat) (hw : w < motionBuffer_length) :
    ∀ (fuel p : Nat), p < motionBuffer_length → ringDistance p w < fuel →
      (∃ j, 1 ≤ j ∧ j ≤ ringDistance p w ∧
        (buf.getD ((p + j) % motionBuffer_length) default).waitForSync = 1 ∧
        (∀ i, 1 ≤ i → i < j →
          (buf.getD ((p + i) % motionBuffer_length) default).waitForSync ≠ 1) ∧
        syncScan buf w fuel p = SyncScanResult.found ((p + j) % motionBuffer_length)) ∨
      ((∀ j, 1 ≤ j → j ≤ ringDistance p w →
          (buf.getD ((p + j) % motionBuffer_length) default).waitForSync ≠ 1) ∧
        syncScan buf w fuel p = SyncScanResult.reachedWrite w) := by
  intro fuel
  induction fuel with
  | zero => intro p _ hd; exact absurd hd (Nat.not_lt_zero _)
  | succ fuel ih =>
    intro p hp hd
    by_cases hpw : p = w
    · right
      constructor
      · intro j hj1 hj2
        have hz : ringDistance p w = 0 := by
          subst hpw
          simp only [ringDistance, motionBuffer_length] at *
          omega
        omega
      · subst hpw
        simp [syncScan]
    · have hd1 : 1 ≤ ringDistance p w := by
        simp only [ringDistance, motionBuffer_length] at *
        omega
      have hwrap : (if p + 1 = motionBuffer_length then 0 else p + 1)
          = (p + 1) % motionBuffer_length := by
        simp only [motionBuffer_length] at *
        split <;> omega
      by_cases hflag : (buf.getD ((p + 1) % motionBuffer_length) default).waitForSync = 1
      · left
        refine ⟨1, le_refl 1, hd1, hflag, ?_, ?_⟩
        · intro i h1 hi
          omega
        · simp only [syncScan, if_neg hpw, hwrap, if_pos hflag]
      · have hp1 : (p + 1) % motionBuffer_length < motionBuffer_length :=
          Nat.mod_lt _ (by simp [motionBuffer_length])
        have hdist : ringDistance ((p + 1) % motionBuffer_length) w
            = ringDistance p w - 1 := by
          simp only [ringDistance, motionBuffer_length] at *
          omega
        have hshift : ∀ i : Nat,
            ((p + 1) % motionBuffer_length + i) % motionBuffer_length
              = (p + (1 + i)) % motionBuffer_length := by
          intro i
          rw [Nat.mod_add_mod, Nat.add_assoc]
        have hscanstep : syncScan buf w (fuel + 1) p
            = syncScan buf w fuel ((p + 1) % motionBuffer_length) := by
          simp only [syncScan, if_neg hpw, hwrap, if_neg hflag]
        rcases ih ((p + 1) % motionBuffer_length) hp1 (by omega) with
          ⟨j, hj1, hj2, hjf, hjmin, hjscan⟩ | ⟨hnone, hscan⟩
        · left
          refine ⟨j + 1, by omega, by omega, ?_, ?_, ?_⟩
          · rw [hshift j] at hjf
            have he : 1 + j = j + 1 := by omega
            rw [he] at hjf
            exact hjf
          · intro i h1 hi
            rcases Nat.eq_or_lt_of_le h1 with h1e | h1l
            · rw [← h1e]
              exact hflag
            · have := hjmin (i - 1) (by omega) (by omega)
              rw [hshift (i - 1)] at this
              have he : 1 + (i - 1) = i := by omega
              rw [he] at this
              exact this
          · rw [hscanstep, hjscan, hshift j]
            have he : 1 + j = j + 1 := by omega
            rw [he]
        · right
          constructor
          · intro j hj1 hj2
            rcases Nat.eq_or_lt_of_le hj1 with h1e | h1l
            · rw [← h1e]
              exact hflag
            · have := hnone (j - 1) (by omega) (by omega)
              rw [hshift (j - 1)] at this
              have he : 1 + (j - 1) = j := by omega
              rw [he] at this
              exact this
          · rw [hscanstep, hscan]

/-- C5: one sync service call clears the `waitForSync` flag of at most one
buffered segment — the first still-waiting one scanning forward from
`syncSearchPosition + 1` — stopping the scan at `writePosition`; when no
waiting segment exists before the write position, the marker is set to the
write position and no slot changes. -/
theorem C5_sync_monotonicity (s : NodeState)
    (hp : s.motionBuffer_syncSearchPosition < motionBuffer_length)
    (hw : s.motionBuffer_writePosition < motionBuffer_length) :
    ((∀ j, 1 ≤ j →
        j ≤ ringDistance s.motionBuffer_syncSearchPosition s.motionBuffer_writePosition →
        (s.motionBuffer.getD
          ((s.motionBuffer_syncSearchPosition + j) % motionBuffer_length)
          default).waitForSync ≠ 1) ∧
      (svc_sync s).motionBuffer = s.motionBuffer ∧
      (svc_sync s).motionBuffer_syncSearchPosition = s.motionBuffer_writePosition) ∨
    (∃ j, 1 ≤ j ∧
      j ≤ ringDistance s.motionBuffer_syncSearchPosition s.motionBuffer_writePosition ∧
      (s.motionBuffer.getD
        ((s.motionBuffer_syncSearchPosition + j) % motionBuffer_length)
        default).waitForSync = 1 ∧
      (∀ i, 1 ≤ i → i < j →
        (s.motionBuffer.getD
          ((s.motionBuffer_syncSearchPosition + i) % motionBuffer_length)
          default).waitForSync ≠ 1) ∧
      (svc_sync s).motionBuffer_syncSearchPosition
        = (s.motionBuffer_syncSearchPosition + j) % motionBuffer_length ∧
      (svc_sync s).motionBuffer = s.motionBuffer.set
        ((s.motionBuffer_syncSearchPosition + j) % motionBuffer_length)
        { s.motionBuffer.getD
            ((s.motionBuffer_syncSearchPosition + j) % motionBuffer_length)
            default with waitForSync := 0 }) := by
  have hfuel : ringDistance s.motionBuffer_syncSearchPosition s.motionBuffer_writePosition
      < motionBuffer_length + 1 := by
    simp only [ringDistance, motionBuffer_length]
    omega
  have hbuf : (if s.waitingForSync ≠ 0 then { s with tcnt := 0 } else s).motionBuffer
      = s.motionBuffer := by
    split <;> rfl
  have hwp : (if s.waitingForSync ≠ 0 then { s with tcnt := 0 }
      else s).motionBuffer_writePosition = s.motionBuffer_writePosition := by
    split <;> rfl
  have hsp : (if s.waitingForSync ≠ 0 then { s with tcnt := 0 }
      else s).motionBuffer_syncSearchPosition = s.motionBuffer_syncSearchPosition := by
    split <;> rfl
  rcases syncScan_char s.motionBuffer s.motionBuffer_writePosition hw
      (motionBuffer_length + 1) s.motionBuffer_syncSearchPosition hp hfuel with
    ⟨j, hj1, hj2, hjf, hjmin, hjscan⟩ | ⟨hnone, hscan⟩
  · right
    refine ⟨j, hj1, hj2, hjf, hjmin, ?_, ?_⟩ <;>
      simp only [svc_sync, hbuf, hwp, hsp, hjscan]
  · left
    refine ⟨hnone, ?_, ?_⟩ <;>
      simp only [svc_sync, hbuf, hwp, hsp, hscan]

/-- An idle node with one buffered segment in slot 1 flagged
`waitForSync = 1` (write head at 1, sync search at 0). -/
def c5WitnessState : NodeState :=
  { idleNodeState with
      motionBuffer := (List.replicate 48 default).set 1
        { stepper_target := 40, segmentTime := 100, segmentKey := 5,
          absoluteMove := 0, waitForSync := 1 },
      motionBuffer_writePosition := 1 }

/-- C5 witness: the sync-monotonicity theorem applied to a concrete state
with one waiting segment. -/
theorem C5_sync_monotonicity_witness :
    ((∀ j, 1 ≤ j →
        j ≤ ringDistance c5WitnessState.motionBuffer_syncSearchPosition
          c5WitnessState.motionBuffer_writePosition →
        (c5WitnessState.motionBuffer.getD
          ((c5WitnessState.motionBuffer_syncSearchPosition + j) % motionBuffer_length)
          default).waitForSync ≠ 1) ∧
      (svc_sync c5WitnessState).motionBuffer = c5WitnessState.motionBuffer ∧
      (svc_sync c5WitnessState).motionBuffer_syncSearchPosition
        = c5WitnessState.motionBuffer_writePosition) ∨
    (∃ j, 1 ≤ j ∧
      j ≤ ringDistance c5WitnessState.motionBuffer_syncSearchPosition
        c5WitnessState.motionBuffer_writePosition ∧
      (c5WitnessState.motionBuffer.getD
        ((c5WitnessState.motionBuffer_syncSearchPosition + j) % motionBuffer_length)
        default).waitForSync = 1 ∧
      (∀ i, 1 ≤ i → i < j →
        (c5WitnessState.motionBuffer.getD
          ((c5WitnessState.motionBuffer_syncSearchPosition + i) % motionBuffer_length)
          default).waitForSync ≠ 1) ∧
      (svc_sync c5WitnessState).motionBuffer_syncSearchPosition
        = (c5WitnessState.motionBuffer_syncSearchPosition + j) % motionBuffer_length ∧
      (svc_sync c5WitnessState).motionBuffer = c5WitnessState.motionBuffer.set
        ((c5WitnessState.motionBuffer_syncSearchPosition + j) % motionBuffer_length)
        { c5WitnessState.motionBuffer.getD
            ((c5WitnessState.motionBuffer_syncSearchPosition + j) % motionBuffer_length)
            default with waitForSync := 0 }) :=
  C5_sync_monotonicity c5WitnessState (by decide) (by decide)

-- ----- LOADER SUCCESS CHARACTERIZATION -----

/-- Full characterization of a successful `loadSegmentIntoStepGenerator`:
the next slot is read, an absolute target is converted to a delta against
the current position, the delta's sign drives the direction pin and
`direction`, its magnitude arms `targetSteps`/`stepsRemaining`, and the
Bresenham parameters are loaded from the slot's `segmentTime`. -/
lemma loadSegment_success_spec (s : NodeState) (newRead : Nat) (seg : MotionSegment)
    (delta : Int)
    (hr : s.motionBuffer_readPosition < motionBuffer_length)
    (hne : s.motionBuffer_readPosition ≠ s.motionBuffer_writePosition)
    (hnewRead : newRead = (s.motionBuffer_readPosition + 1) % motionBuffer_length)
    (hseg : seg = s.motionBuffer.getD newRead default)
    (hws : seg.waitForSync ≠ 1)
    (hdelta : delta = (if seg.absoluteMove = 1 then seg.stepper_target - s.stepperPosition
      else seg.stepper_target)) :
    loadSegmentIntoStepGenerator s =
      (1, { s with
              waitingForSync := 0,
              motionBuffer_syncSearchPosition :=
                if s.motionBuffer_syncSearchPosition = s.motionBuffer_readPosition then
                  newRead
                else s.motionBuffer_syncSearchPosition,
              motionBuffer_readPosition := newRead,
              directionPin := if 0 < delta then true else false,
              activeStepper :=
                { stepsRemaining := (if 0 < delta then delta else -delta).toNat,
                  targetSteps := (if 0 < delta then delta else -delta).toNat,
                  bresenhamAccumulator := 0,
                  direction := if 0 < delta then 1 else -1 },
              activeSegment_segmentKey := seg.segmentKey,
              activeSegment_bresenhamTriggerThreshold := ((seg.segmentTime / 2 : Nat) : Int),
              activeSegment_totalTime := seg.segmentTime,
              activeSegment_timeRemaining := seg.segmentTime }) := by
  have hwrap : (if s.motionBuffer_readPosition + 1 = motionBuffer_length then 0
      else s.motionBuffer_readPosition + 1)
      = (s.motionBuffer_readPosition + 1) % motionBuffer_length := by
    simp only [motionBuffer_length] at hr ⊢
    split <;> omega
  subst hnewRead
  subst hseg
  subst hdelta
  simp only [loadSegmentIntoStepGenerator, hwrap, if_neg hne, if_neg hws]
  simp only [setStepDirection, stepper1_forward, stepper1_reverse,
    show ((1 : Nat) = 0) = False by simp, show ((0 : Nat) = 0) = True by simp,
    if_true, if_false]
  split_ifs <;> rfl

/-- With `targetSteps = 0`, a zero accumulator and a nonnegative threshold,
the Bresenham recurrence never fires. -/
lemma bresRun_zero (T : Nat) (thr : Int) (h : 0 ≤ thr) :
    ∀ n, bresRun 0 T thr 0 n = (0, 0) := by
  intro n
  induction n with
  | zero => rfl
  | succ n ih =>
    have ht : bresTick 0 T thr 0 = (0, false) := by
      simp only [bresTick, Nat.cast_zero, add_zero]
      rw [if_neg (by omega)]
    rw [bresRun_succ, ht, ih]
    rfl

-- ----- CLAIM C10: ZERO-DELTA SEGMENT -----

/-- With `targetSteps = 0` and a zero accumulator, an ISR run within the
active segment emits no pulse and leaves the position ledger unchanged. -/
lemma isrRun_zero_target (s : NodeState) (hK : s.activeStepper.targetSteps = 0)
    (ha : s.activeStepper.bresenhamAccumulator = 0)
    (hthr : 0 ≤ s.activeSegment_bresenhamTriggerThreshold) (n : Nat)
    (hn : n ≤ s.activeSegment_timeRemaining) :
    (isrRun s n).2.1 = 0 ∧ (isrRun s n).1.stepperPosition = s.stepperPosition := by
  obtain ⟨hc, hp, _⟩ := isrRun_matches_bres n s hn
  rw [hK, ha] at hc hp
  rw [bresRun_zero s.activeSegment_totalTime s.activeSegment_bresenhamTriggerThreshold
    hthr n] at hc hp
  refine ⟨hc, ?_⟩
  rw [hp]
  simp

/-- C10: when the per-axis delta computed at load time is exactly zero, the
loader takes the non-positive branch — direction `-1` and the direction pin
driven to reverse — with `targetSteps = stepsRemaining = 0`, so running the
whole segment emits no pulse on the axis and the position is unchanged. -/
theorem C10_zero_delta_segment (s : NodeState)
    (hr : s.motionBuffer_readPosition < motionBuffer_length)
    (hne : s.motionBuffer_readPosition ≠ s.motionBuffer_writePosition)
    (hws : (s.motionBuffer.getD ((s.motionBuffer_readPosition + 1) % motionBuffer_length)
      default).waitForSync ≠ 1)
    (hdelta : (if (s.motionBuffer.getD
        ((s.motionBuffer_readPosition + 1) % motionBuffer_length) default).absoluteMove = 1
      then (s.motionBuffer.getD
          ((s.motionBuffer_readPosition + 1) % motionBuffer_length) default).stepper_target
        - s.stepperPosition
      else (s.motionBuffer.getD
          ((s.motionBuffer_readPosition + 1) % motionBuffer_length) default).stepper_target)
      = 0) :
    (loadSegmentIntoStepGenerator s).1 = 1 ∧
    (loadSegmentIntoStepGenerator s).2.activeStepper.direction = -1 ∧
    (loadSegmentIntoStepGenerator s).2.directionPin = false ∧
    (loadSegmentIntoStepGenerator s).2.activeStepper.targetSteps = 0 ∧
    (loadSegmentIntoStepGenerator s).2.activeStepper.stepsRemaining = 0 ∧
    (isrRun (loadSegmentIntoStepGenerator s).2
        (loadSegmentIntoStepGenerator s).2.activeSegment_timeRemaining).2.1 = 0 ∧
    (isrRun (loadSegmentIntoStepGenerator s).2
        (loadSegmentIntoStepGenerator s).2.activeSegment_timeRemaining).1.stepperPosition
      = s.stepperPosition := by
  have hload := loadSegment_success_spec s
      ((s.motionBuffer_readPosition + 1) % motionBuffer_length)
      (s.motionBuffer.getD ((s.motionBuffer_readPosition + 1) % motionBuffer_length) default)
      _ hr hne rfl rfl hws rfl
  have hnp : ¬ (0 : Int) < (if (s.motionBuffer.getD
      ((s.motionBuffer_readPosition + 1) % motionBuffer_length) default).absoluteMove = 1
    then (s.motionBuffer.getD
        ((s.motionBuffer_readPosition + 1) % motionBuffer_length) default).stepper_target
      - s.stepperPosition
    else (s.motionBuffer.getD
        ((s.motionBuffer_readPosition + 1) % motionBuffer_length) default).stepper_target) := by
    omega
  have hmag : (-(if (s.motionBuffer.getD
      ((s.motionBuffer_readPosition + 1) % motionBuffer_length) default).absoluteMove = 1
    then (s.motionBuffer.getD
        ((s.motionBuffer_readPosition + 1) % motionBuffer_length) default).stepper_target
      - s.stepperPosition
    else (s.motionBuffer.getD
        ((s.motionBuffer_readPosition + 1) % motionBuffer_length) default).stepper_target)).toNat
      = 0 := by
    omega
  rw [hload]
  dsimp only
  simp only [if_neg hnp]
  refine ⟨trivial, trivial, trivial, hmag, hmag, ?_, ?_⟩
  · exact (isrRun_zero_target _ hmag rfl (Int.natCast_nonneg _) _ (le_refl _)).1
  · exact (isrRun_zero_target _ hmag rfl (Int.natCast_nonneg _) _ (le_refl _)).2

/-- An idle node with one buffered incremental segment whose target is 0. -/
def c10WitnessState : NodeState :=
  { idleNodeState with
      motionBuffer := (List.replicate 48 default).set 1
        { stepper_target := 0, segmentTime := 5, segmentKey := 3,
          absoluteMove := 0, waitForSync := 0 },
      motionBuffer_writePosition := 1 }

/-- C10 witness: the zero-delta theorem applied to a concrete segment with
target 0 over 5 ticks. -/
theorem C10_zero_delta_segment_witness :
    (loadSegmentIntoStepGenerator c10WitnessState).1 = 1 ∧
    (loadSegmentIntoStepGenerator c10WitnessState).2.activeStepper.direction = -1 ∧
    (loadSegmentIntoStepGenerator c10WitnessState).2.directionPin = false ∧
    (loadSegmentIntoStepGenerator c10WitnessState).2.activeStepper.targetSteps = 0 ∧
    (loadSegmentIntoStepGenerator c10WitnessState).2.activeStepper.stepsRemaining = 0 ∧
    (isrRun (loadSegmentIntoStepGenerator c10WitnessState).2
        (loadSegmentIntoStepGenerator c10WitnessState).2.activeSegment_timeRemaining).2.1
      = 0 ∧
    (isrRun (loadSegmentIntoStepGenerator c10WitnessState).2
        (loadSegmentIntoStepGenerator c10WitnessState).2.activeSegment_timeRemaining
        ).1.stepperPosition
      = c10WitnessState.stepperPosition :=
  C10_zero_delta_segment c10WitnessState (by decide) (by decide) (by decide) (by decide)

-- ----- CLAIM C2: ABSOLUTE-TO-DELTA CONVERSION (SCENARIO S3) -----

/-- The stepRequest payload of scenario S3: target `+800` (int24 LE
`20 03 00`), `segmentTime = T` (uint24 LE), key 11, absolute move, no sync
wait. -/
def s3ScenarioRx (T : Nat) : List Nat :=
  [0x20, 0x03, 0x00, T % 2 ^ 8, T / 2 ^ 8 % 2 ^ 8, T / 2 ^ 16 % 2 ^ 8, 11, 1, 0]

/-- The S3 start state: an idle node whose position ledger sits at host
step +500, i.e. `500 << smoothingBits = 2000` internal microsteps. -/
def s3StartState : NodeState :=
  { idleNodeState with stepperPosition := 500 * 2 ^ smoothingMicrosteppingBits }

/-- The node state after the S3 stepRequest has been enqueued. -/
def s3AfterEnqueue (T : Nat) : NodeState :=
  (loadSegmentIntoMotionBuffer s3StartState (s3ScenarioRx T) 0).2

lemma s3_decode_target (T : Nat) : readRxBuffer_int24 (s3ScenarioRx T) 0 0 = 800 := by
  simp [readRxBuffer_int24, readRxBuffer_uint24, int32_ofUInt32, s3ScenarioRx]

lemma s3_decode_time (T : Nat) (hT : T < 2 ^ 24) :
    readRxBuffer_uint24 (s3ScenarioRx T) 0 3 = T := by
  have hdd : T / 256 / 256 = T / 65536 := by
    rw [Nat.div_div_eq_div_mul]
  simp [readRxBuffer_uint24, s3ScenarioRx]
  omega

/-- The S3 segment as it sits in the motion buffer: the target is shifted
to internal units (`800 << 2 = 3200`). -/
lemma s3_afterEnqueue_eq (T : Nat) (hT : T < 2 ^ 24) :
    s3AfterEnqueue T = { s3StartState with
      motionBuffer := (List.replicate 48 default).set 1
        { stepper_target := 3200, segmentTime := T, segmentKey := 11,
          absoluteMove := 1, waitForSync := 0 },
      motionBuffer_writePosition := 1 } := by
  simp only [s3AfterEnqueue, loadSegmentIntoMotionBuffer, numberOfSteppersOnNode,
    motionBuffer_length, smoothingMicrosteppingBits]
  norm_num [s3_decode_target T, s3_decode_time T hT]
  rfl

/-- The active-segment state right after the ISR's first idle tick loads
the S3 segment: delta `3200 - 2000 = 1200`, direction forward. -/
def s3LoadedState (T : Nat) : NodeState :=
  { s3StartState with
      motionBuffer := (List.replicate 48 default).set 1
        { stepper_target := 3200, segmentTime := T, segmentKey := 11,
          absoluteMove := 1, waitForSync := 0 },
      motionBuffer_writePosition := 1,
      waitingForSync := 0,
      motionBuffer_syncSearchPosition := 1,
      motionBuffer_readPosition := 1,
      directionPin := true,
      activeStepper :=
        { stepsRemaining := 1200, targetSteps := 1200,
          bresenhamAccumulator := 0, direction := 1 },
      activeSegment_segmentKey := 11,
      activeSegment_bresenhamTriggerThreshold := ((T / 2 : Nat) : Int),
      activeSegment_totalTime := T,
      activeSegment_timeRemaining := T,
      driversEnabled := true }

/-- The first ISR tick after the S3 enqueue performs no step (no active
segment yet) and loads the segment, converting the absolute target against
the position at load time. -/
lemma s3_tick1 (T : Nat) (hT : T < 2 ^ 24) :
    isrTick (s3AfterEnqueue T) = (s3LoadedState T, 0) := by
  rw [s3_afterEnqueue_eq T hT]
  have hgetD : ((List.replicate 48 (default : MotionSegment)).set 1
      { stepper_target := 3200, segmentTime := T, segmentKey := 11,
        absoluteMove := 1, waitForSync := 0 }).getD 1 default
      = { stepper_target := 3200, segmentTime := T, segmentKey := 11,
          absoluteMove := 1, waitForSync := 0 } := by
    apply getD_set_self
    simp
  have hload := loadSegment_success_spec
      { s3StartState with
          motionBuffer := (List.replicate 48 default).set 1
            { stepper_target := 3200, segmentTime := T, segmentKey := 11,
              absoluteMove := 1, waitForSync := 0 },
          motionBuffer_writePosition := 1 } 1
      { stepper_target := 3200, segmentTime := T, segmentKey := 11,
        absoluteMove := 1, waitForSync := 0 } 1200
      (by norm_num [s3StartState, idleNodeState, motionBuffer_length])
      (by norm_num [s3StartState, idleNodeState])
      (by norm_num [s3StartState, idleNodeState, motionBuffer_length])
      (by exact hgetD.symm)
      (by norm_num)
      (by norm_num [s3StartState, idleNodeState, smoothingMicrosteppingBits])
  have hphase : isrStepPhase { s3StartState with
      motionBuffer := (List.replicate 48 default).set 1
        { stepper_target := 3200, segmentTime := T, segmentKey := 11,
          absoluteMove := 1, waitForSync := 0 },
      motionBuffer_writePosition := 1 }
      = ({ s3StartState with
            motionBuffer := (List.replicate 48 default).set 1
              { stepper_target := 3200, segmentTime := T, segmentKey := 11,
                absoluteMove := 1, waitForSync := 0 },
            motionBuffer_writePosition := 1 }, 0) := by
    simp [isrStepPhase, s3StartState, idleNodeState]
  norm_num [s3StartState, idleNodeState, smoothingMicrosteppingBits] at hload
  simp only [isrTick, hphase]
  norm_num [s3StartState, idleNodeState, smoothingMicrosteppingBits, hload,
    s3LoadedState]
  rfl

/-- Running the S3 scenario end to end: one idle tick that loads the
segment followed by its `T` ticks emits `1200` pulses and leaves the
position ledger at `3200` internal microsteps (`800 << 2`). -/
lemma s3Scenario_run (T : Nat) (hT1 : 1200 ≤ T) (hT2 : T < 2 ^ 24) :
    (isrRun (s3AfterEnqueue T) (T + 1)).2.1 = 1200 ∧
    (isrRun (s3AfterEnqueue T) (T + 1)).1.stepperPosition = 3200 := by
  obtain ⟨h1, h2, _⟩ := isrRun_matches_bres T (s3LoadedState T)
    (by simp [s3LoadedState])
  have hbres : (bresRun (s3LoadedState T).activeStepper.targetSteps
      (s3LoadedState T).activeSegment_totalTime
      (s3LoadedState T).activeSegment_bresenhamTriggerThreshold
      (s3LoadedState T).activeStepper.bresenhamAccumulator T).2 = 1200 := by
    show (bresRun 1200 T ((T / 2 : Nat) : Int) 0 T).2 = 1200
    exact bresRun_count 1200 T hT1
  have hstep : isrRun (s3AfterEnqueue T) (T + 1)
      = ((isrRun (s3LoadedState T) T).1,
          0 + (isrRun (s3LoadedState T) T).2.1,
          (if (0 : Nat) = 1 then (s3AfterEnqueue T).activeStepper.direction else 0)
            + (isrRun (s3LoadedState T) T).2.2) := by
    conv_lhs => rw [show T + 1 = Nat.succ T from rfl]
    rw [isrRun]
    rw [s3_tick1 T hT2]
  rw [hstep]
  refine ⟨by rw [h1, hbres], ?_⟩
  dsimp only
  rw [h2, hbres]
  norm_num [s3LoadedState, s3StartState, smoothingMicrosteppingBits]

/-- C2 (amended): absolute-to-delta conversion happens at load time — on a
successful load of an absolute segment the delta is the stored target minus
the position at the moment of load, its sign sets `direction`, its
magnitude sets `targetSteps`; in the S3 scenario (position `+500` host
steps, enqueued `{target = +800, absolute = 1, segmentTime = T}` with
`1200 ≤ T < 2^24`) exactly `300 << smoothingBits = 1200` pulses are
emitted in the positive direction and the final position is
`800 << smoothingBits`. -/
theorem C2_absolute_load_at_load_time (s : NodeState) (T : Nat)
    (hr : s.motionBuffer_readPosition < motionBuffer_length)
    (hne : s.motionBuffer_readPosition ≠ s.motionBuffer_writePosition)
    (hws : (s.motionBuffer.getD ((s.motionBuffer_readPosition + 1) % motionBuffer_length)
      default).waitForSync ≠ 1)
    (habs : (s.motionBuffer.getD ((s.motionBuffer_readPosition + 1) % motionBuffer_length)
      default).absoluteMove = 1)
    (hT1 : 1200 ≤ T) (hT2 : T < 2 ^ 24) :
    ((loadSegmentIntoStepGenerator s).1 = 1 ∧
     (loadSegmentIntoStepGenerator s).2.activeStepper.targetSteps
       = ((s.motionBuffer.getD ((s.motionBuffer_readPosition + 1) % motionBuffer_length)
            default).stepper_target - s.stepperPosition).natAbs ∧
     (0 < (s.motionBuffer.getD ((s.motionBuffer_readPosition + 1) % motionBuffer_length)
          default).stepper_target - s.stepperPosition →
       (loadSegmentIntoStepGenerator s).2.activeStepper.direction = 1) ∧
     ((s.motionBuffer.getD ((s.motionBuffer_readPosition + 1) % motionBuffer_length)
          default).stepper_target - s.stepperPosition < 0 →
       (loadSegmentIntoStepGenerator s).2.activeStepper.direction = -1)) ∧
    ((isrRun (s3AfterEnqueue T) (T + 1)).2.1 = 300 * 2 ^ smoothingMicrosteppingBits ∧
     (isrRun (s3AfterEnqueue T) (T + 1)).1.stepperPosition
       = 800 * 2 ^ smoothingMicrosteppingBits) := by
  have hload := loadSegment_success_spec s
      ((s.motionBuffer_readPosition + 1) % motionBuffer_length)
      (s.motionBuffer.getD ((s.motionBuffer_readPosition + 1) % motionBuffer_length) default)
      _ hr hne rfl rfl hws rfl
  rw [hload]
  dsimp only
  simp only [habs, if_true, show (1 = 1) = True by simp]
  refine ⟨⟨trivial, ?_, ?_, ?_⟩, ?_⟩
  · split_ifs <;> omega
  · intro h
    rw [if_pos h]
  · intro h
    rw [if_neg (by omega)]
  · obtain ⟨hp, hpos⟩ := s3Scenario_run T hT1 hT2
    constructor
    · rw [hp]
      norm_num [smoothingMicrosteppingBits]
    · rw [hpos]
      norm_num [smoothingMicrosteppingBits]

/-- C2 counterexample: at `T = 1200`, the S3 scenario (position +500,
absolute target +800) emits 1200 step pulses, not the 300 the claim
states — the enqueue shift by `smoothingBits` multiplies the host-step
delta by 4. -/
theorem C2_scenario_counterexample :
    (isrRun (s3AfterEnqueue 1200) (1200 + 1)).2.1 = 1200 ∧
    (isrRun (s3AfterEnqueue 1200) (1200 + 1)).2.1 ≠ 300 := by
  have h := (s3Scenario_run 1200 (le_refl _) (by norm_num)).1
  rw [h]
  norm_num

/-- A node at internal position 2000 with a buffered absolute segment
targeting 3200 internal microsteps. -/
def c2WitnessState : NodeState :=
  { idleNodeState with
      motionBuffer := (List.replicate 48 default).set 1
        { stepper_target := 3200, segmentTime := 1500, segmentKey := 7,
          absoluteMove := 1, waitForSync := 0 },
      motionBuffer_writePosition := 1,
      stepperPosition := 2000 }

/-- C2 witness: the amended theorem applied at `T = 1500` and the concrete
absolute segment. -/
theorem C2_absolute_load_at_load_time_witness :
    ((loadSegmentIntoStepGenerator c2WitnessState).1 = 1 ∧
     (loadSegmentIntoStepGenerator c2WitnessState).2.activeStepper.targetSteps
       = ((c2WitnessState.motionBuffer.getD
            ((c2WitnessState.motionBuffer_readPosition + 1) % motionBuffer_length)
            default).stepper_target - c2WitnessState.stepperPosition).natAbs ∧
     (0 < (c2WitnessState.motionBuffer.getD
          ((c2WitnessState.motionBuffer_readPosition + 1) % motionBuffer_length)
          default).stepper_target - c2WitnessState.stepperPosition →
       (loadSegmentIntoStepGenerator c2WitnessState).2.activeStepper.direction = 1) ∧
     ((c2WitnessState.motionBuffer.getD
          ((c2WitnessState.motionBuffer_readPosition + 1) % motionBuffer_length)
          default).stepper_target - c2WitnessState.stepperPosition < 0 →
       (loadSegmentIntoStepGenerator c2WitnessState).2.activeStepper.direction = -1)) ∧
    ((isrRun (s3AfterEnqueue 1500) (1500 + 1)).2.1 = 300 * 2 ^ smoothingMicrosteppingBits ∧
     (isrRun (s3AfterEnqueue 1500) (1500 + 1)).1.stepperPosition
       = 800 * 2 ^ smoothingMicrosteppingBits) :=
  C2_absolute_load_at_load_time c2WitnessState 1500 (by decide) (by decide) (by decide)
    (by decide) (by decide) (by norm_num)
